import Mathlib

/-!
Shallow embedding of `mssp_migrate_to_cc.py`, the MSSP-to-Cyber-Controller
migration tool, together with proofs of its specified properties.

Python dictionaries with optional keys are modelled as structures with
`Option`-typed fields; `dict.get(key, default)` becomes `Option.getD`.
HTTP responses are modelled by a `ListingResponse` value (status code plus
the optional parsed `reply` list), passed in as an oracle argument, so the
pure data-flow of each function is preserved exactly.  The destination
client (`Vision`) is modelled as an oracle of call outcomes, and the import
orchestrator produces the trace of destination calls it issues.
-/

namespace MsspMigrate

/-- Python truncation `s[:31]` on a string, as character-list truncation. -/
def strTake (s : String) (n : Nat) : String :=
  String.mk (s.data.take n)

/-! ## Role mapping (`select_new_role`, lines 127-153) -/

/-- The `new_role_mapping` dict of `select_new_role`. -/
def new_role_mapping : List (String × String) :=
  [("userAdmin", "MSSP_PORTAL_ADMIN"),
   ("basicUser", "MSSP_PORTAL_USER"),
   ("dashboardUser", "MSSP_PORTAL_VIEWER"),
   ("userViewer", "MSSP_PORTAL_VIEWER")]

/-- The `role_priority` scan order of `select_new_role`. -/
def role_priority : List String :=
  ["userAdmin", "basicUser", "dashboardUser", "userViewer"]

/-- Embedding of `select_new_role(current_roles)`: scan `role_priority` in
order, return the mapped destination role of the first role present in
`current_roles`, and `none` when no recognized role matches. -/
def select_new_role (current_roles : List String) : Option String :=
  match role_priority.find? (fun role => current_roles.contains role) with
  | some role => new_role_mapping.lookup role
  | none => none

/-- Characterization of the priority scan as a nested conditional on
membership.  Shared helper for the claims about `select_new_role`. -/
theorem select_new_role_eq (roles : List String) :
    select_new_role roles =
      (if "userAdmin" ∈ roles then some "MSSP_PORTAL_ADMIN"
       else if "basicUser" ∈ roles then some "MSSP_PORTAL_USER"
       else if "dashboardUser" ∈ roles then some "MSSP_PORTAL_VIEWER"
       else if "userViewer" ∈ roles then some "MSSP_PORTAL_VIEWER"
       else none) := by
  unfold select_new_role role_priority
  by_cases h1 : "userAdmin" ∈ roles <;>
    by_cases h2 : "basicUser" ∈ roles <;>
      by_cases h3 : "dashboardUser" ∈ roles <;>
        by_cases h4 : "userViewer" ∈ roles <;>
          simp [List.find?, List.contains, h1, h2, h3, h4, new_role_mapping] <;> rfl

/-! ## Source-side data model

Python dicts with optional keys become structures of `Option` fields; the
nested accesses `user.get('account', {}).get('_oid', 'N/A')` etc. keep
their two-level shape. -/

/-- The `account` sub-dict of a user record (key `_oid`). -/
structure PyAccountRef where
  oid : Option String
deriving DecidableEq

/-- The `roles` sub-dict of a user record (key `currentAccount`). -/
structure PyRoles where
  currentAccount : Option (List String)
deriving DecidableEq

/-- The `auth_meta` sub-dict of a user record (key `allowed_ip_list`). -/
structure PyAuthMeta where
  allowed_ip_list : Option (List String)
deriving DecidableEq

/-- A source-system user record as consumed by `build_users_info`. -/
structure PyUser where
  name : Option String
  username : Option String
  role : Option String
  email : Option String
  auth_type : Option String
  account : Option PyAccountRef
  roles : Option PyRoles
  auth_meta : Option PyAuthMeta
  notes : Option String
deriving DecidableEq

/-- The `_id` sub-dict of an account record (key `_oid`). -/
structure PyAccountId where
  oid : Option String
deriving DecidableEq

/-- A source-system account record as consumed by the export builder. -/
structure SrcAccount where
  id_ : Option PyAccountId
  name : Option String
  type_ : Option String
deriving DecidableEq

/-- A source-system asset record (key `policies`). -/
structure SrcAsset where
  policies : Option (List String)
deriving DecidableEq

/-! ## HTTP listing calls (lines 63-72, 89-110)

Each fetch function issues one GET and inspects the response; the response
is passed in as an oracle value so the data handling is preserved. -/

/-- An HTTP response to a listing call: status code and the optional
`reply` field of the JSON envelope. -/
structure ListingResponse (α : Type) where
  status_code : Nat
  reply : Option (List α)

/-- Embedding of `fetch_all_accounts`: the parsed `reply` list on status
200 (empty when the field is absent), the empty list otherwise. -/
def fetch_all_accounts (response : ListingResponse SrcAccount) : List SrcAccount :=
  if response.status_code = 200 then response.reply.getD [] else []

/-- Embedding of `fetch_assets_for_account`: same response contract. -/
def fetch_assets_for_account (response : ListingResponse SrcAsset) : List SrcAsset :=
  if response.status_code = 200 then response.reply.getD [] else []

/-- Embedding of `fetch_users_for_account`: same response contract. -/
def fetch_users_for_account (response : ListingResponse PyUser) : List PyUser :=
  if response.status_code = 200 then response.reply.getD [] else []

/-! ## Pure filters (lines 74-86, 112-124) -/

/-- Embedding of `filter_accounts_by_type`: keep accounts whose `_type`
equals `account_type` (a missing `_type` reads as `None` and never
matches). -/
def filter_accounts_by_type (accounts : List SrcAccount) (account_type : String) :
    List SrcAccount :=
  accounts.filter (fun account => account.type_ == some account_type)

/-- Embedding of `filter_users_by_role`: keep users whose `role` equals
`role` (a missing `role` reads as `None` and never matches). -/
def filter_users_by_role (users : List PyUser) (role : String) : List PyUser :=
  users.filter (fun user => user.role == some role)

/-! ## User-info and asset-info projection (lines 155-211) -/

/-- One entry of the list returned by `build_users_info`. -/
structure UserInfo where
  name : Option String
  username : String
  role : String
  email : Option String
  auth_type : Option String
  account_oid : String
  role_current : String
  new_role : Option String
  allowed_ip : String
  notes : String
deriving DecidableEq

/-- The loop body of `build_users_info`: projection of one user record
with the defaulting rules of lines 169-189. -/
def build_user_info (user : PyUser) : UserInfo :=
  let username := user.username.getD "N/A"
  let account_oid := ((user.account.getD { oid := none }).oid).getD "N/A"
  let current_account_roles := ((user.roles.getD { currentAccount := none }).currentAccount).getD []
  let roles_string :=
    if current_account_roles.isEmpty then "None"
    else String.intercalate ", " current_account_roles
  let new_role := select_new_role current_account_roles
  let allowed_ips := ((user.auth_meta.getD { allowed_ip_list := none }).allowed_ip_list).getD []
  let first_ip := match allowed_ips with
    | [] => ""
    | ip :: _ => ip
  let notes := user.notes.getD ""
  { name := user.name
    username := username
    role := user.role.getD "N/A"
    email := user.email
    auth_type := user.auth_type
    account_oid := account_oid
    role_current := roles_string
    new_role := new_role
    allowed_ip := first_ip
    notes := notes }

/-- Embedding of `build_users_info`: the projection applied to each user
in order. -/
def build_users_info (filtered_users : List PyUser) : List UserInfo :=
  filtered_users.map build_user_info

/-- Embedding of `build_assets_info`: each asset rendered as its
comma-joined policy list (missing policies read as the empty list). -/
def build_assets_info (assets : List SrcAsset) : List String :=
  assets.map (fun asset => String.intercalate ", " (asset.policies.getD []))

/-! ## Export builder (`build_structured_export`, lines 213-250) -/

/-- One Account Export Entry of the Structured Export Document. -/
structure GroupEntry where
  accountName : String
  accountType : String
  accountOid : String
  assets : List String
  users : List UserInfo
deriving DecidableEq

/-- The nested access `account.get('_id', {}).get('_oid', 'N/A')`. -/
def account_oid_of (account : SrcAccount) : String :=
  ((account.id_.getD { oid := none }).oid).getD "N/A"

/-- The loop body of `build_structured_export`: the Account Export Entry
assembled for one customer account, given the per-account listing
responses for assets and users as oracles keyed by account oid. -/
def entry_of_account (assetsResp : String → ListingResponse SrcAsset)
    (usersResp : String → ListingResponse PyUser) (account : SrcAccount) : GroupEntry :=
  let account_id := account_oid_of account
  { accountName := account.name.getD "N/A"
    accountType := account.type_.getD "N/A"
    accountOid := account_id
    assets := build_assets_info (fetch_assets_for_account (assetsResp account_id))
    users := build_users_info
      (filter_users_by_role (fetch_users_for_account (usersResp account_id)) "user") }

/-- Embedding of `build_structured_export`: filter the fetched accounts to
type `CustomerAccount`, then assemble one entry per account in listing
order. -/
def build_structured_export (accountsResp : ListingResponse SrcAccount)
    (assetsResp : String → ListingResponse SrcAsset)
    (usersResp : String → ListingResponse PyUser) : List GroupEntry :=
  (filter_accounts_by_type (fetch_all_accounts accountsResp) "CustomerAccount").map
    (entry_of_account assetsResp usersResp)

/-! ## Destination import orchestrator (`import_mssp_config`, lines 28-39)

The external `Vision` client is modelled as an oracle of outcomes: whether
its login succeeds, and whether each group-creation call succeeds.  The
orchestrator is modelled by the trace of destination calls it issues. -/

/-- Oracle model of the external destination client. -/
structure Vision where
  loginOk : Bool
  createOk : String → List String → Bool

/-- One destination call issued during the import phase. -/
inductive ImportEvent where
  | groupCreate (name : String) (poList : List String) (ok : Bool) (dry : Bool)
  | addUser (user : UserInfo) (group : String) (password : String) (dry : Bool)
deriving DecidableEq

/-- The destination group name computed at line 32:
`(group["Account Name"] + "_" + group["Account OID"])[:31]`. -/
def cc_group_name (accountName accountOid : String) : String :=
  strTake (accountName ++ "_" ++ accountOid) 31

/-- The loop body of `import_mssp_config` for one Account Export Entry:
one group-creation call, followed by one user-creation call per user when
and only when group creation succeeded. -/
def group_events (vision : Vision) (new_user_password : String) (dry_run : Bool)
    (group : GroupEntry) : List ImportEvent :=
  let nm := cc_group_name group.accountName group.accountOid
  if vision.createOk nm group.assets then
    ImportEvent.groupCreate nm group.assets true dry_run ::
      group.users.map (fun user => ImportEvent.addUser user nm new_user_password dry_run)
  else
    [ImportEvent.groupCreate nm group.assets false dry_run]

/-- Embedding of `import_mssp_config`: nothing is issued unless the single
destination login succeeds; otherwise each entry is processed in document
order. -/
def import_mssp_config (vision : Vision) (config : List GroupEntry)
    (new_user_password : String) (dry_run : Bool) : List ImportEvent :=
  if vision.loginOk then
    config.flatMap (group_events vision new_user_password dry_run)
  else
    []

/-! ## Main control flow (lines 313-347)

The top-level branch structure after argument parsing, with the source
login result, the built export, and the loaded snapshot passed in as
oracles.  The observable outcome is the list of top-level actions. -/

/-- The parsed command-line arguments. -/
structure Args where
  mssp_address : Option String
  mssp_username : Option String
  mssp_password : Option String
  cc_address : Option String
  cc_username : Option String
  cc_password : Option String
  export_file : Option String
  import_from_file : Bool
  config_file : Option String
  dry_run : Bool
  initial_user_password : Option String
deriving DecidableEq

/-- A top-level action of the main block. -/
inductive MainAction where
  | usageError
  | exitNoLogin
  | exitNoConfigFile
  | saveExport (doc : List GroupEntry) (base : String)
  | runImport (doc : List GroupEntry) (password : String) (dry : Bool)
  | warnDryRun
deriving DecidableEq

/-- The destination-import block at lines 338-347: import only proceeds
when all three destination credentials are present AND no export file was
requested; a dry run without full credentials only logs a warning. -/
def import_phase (args : Args) (config : List GroupEntry) : List MainAction :=
  if args.cc_address.isSome ∧ args.cc_username.isSome ∧ args.cc_password.isSome then
    if args.export_file.isNone then
      match args.initial_user_password with
      | none => [MainAction.runImport config "P@ssw0rd1!" args.dry_run]
      | some p => [MainAction.runImport config p args.dry_run]
    else []
  else if args.dry_run then [MainAction.warnDryRun] else []

/-- Embedding of the main block at lines 313-347. `loginResult` is the
outcome of the source login, `exported` the document the export builder
would produce, `loaded` the document `load_config` would return. -/
def main_flow (args : Args) (loginResult : Option String)
    (exported loaded : List GroupEntry) : List MainAction :=
  if ¬args.import_from_file then
    if ¬(args.mssp_address.isSome ∧ args.mssp_username.isSome ∧ args.mssp_password.isSome) then
      [MainAction.usageError]
    else
      match loginResult with
      | some _ =>
        (match args.export_file with
         | some f => [MainAction.saveExport exported f]
         | none => []) ++ import_phase args exported
      | none => [MainAction.exitNoLogin]
  else
    match args.config_file with
    | none => [MainAction.exitNoConfigFile]
    | some _ => import_phase args loaded

/-- The nested access `user.get('roles', {}).get('currentAccount', [])`. -/
def current_roles_of (user : PyUser) : List String :=
  ((user.roles.getD { currentAccount := none }).currentAccount).getD []

/-- The nested access `user.get('auth_meta', {}).get('allowed_ip_list', [])`. -/
def allowed_ips_of (user : PyUser) : List String :=
  ((user.auth_meta.getD { allowed_ip_list := none }).allowed_ip_list).getD []

/-- The nested access `user.get('account', {}).get('_oid', 'N/A')`. -/
def user_account_oid_of (user : PyUser) : String :=
  ((user.account.getD { oid := none }).oid).getD "N/A"

/-! ## Claim theorems -/

/-- C1: `select_new_role` implements the strict priority scan
userAdmin > basicUser > dashboardUser > userViewer over the current
role set; any set containing `userAdmin` yields the destination admin
identifier, and a set containing none of the four recognized roles yields
`none` (the function is total and deterministic by construction). -/
theorem C1_select_new_role_priority (roles : List String) :
    select_new_role roles =
      (if "userAdmin" ∈ roles then some "MSSP_PORTAL_ADMIN"
       else if "basicUser" ∈ roles then some "MSSP_PORTAL_USER"
       else if "dashboardUser" ∈ roles then some "MSSP_PORTAL_VIEWER"
       else if "userViewer" ∈ roles then some "MSSP_PORTAL_VIEWER"
       else none) ∧
    ("userAdmin" ∈ roles → select_new_role roles = some "MSSP_PORTAL_ADMIN") ∧
    ("userAdmin" ∉ roles → "basicUser" ∉ roles → "dashboardUser" ∉ roles →
      "userViewer" ∉ roles → select_new_role roles = none) := by
  refine ⟨select_new_role_eq roles, ?_, ?_⟩
  · intro h
    rw [select_new_role_eq roles, if_pos h]
  · intro h1 h2 h3 h4
    rw [select_new_role_eq roles, if_neg h1, if_neg h2, if_neg h3, if_neg h4]

/-- Witness for C1 at concrete role sets. -/
theorem C1_select_new_role_priority_witness :
    select_new_role ["basicUser", "userAdmin"] = some "MSSP_PORTAL_ADMIN" ∧
    select_new_role ["operator", "admin"] = none :=
  ⟨(C1_select_new_role_priority ["basicUser", "userAdmin"]).2.1 (by decide),
   (C1_select_new_role_priority ["operator", "admin"]).2.2
     (by decide) (by decide) (by decide) (by decide)⟩

/-- C10: `select_new_role` only ever returns `none` or one of the three
destination identifiers, and its result depends only on whether
`userAdmin` is present, whether `basicUser` is present and whether at
least one of the two viewer-tier roles is present — so the viewer-tie
scan order is unobservable in the result. -/
theorem C10_role_codomain_and_viewer_tie (roles roles' : List String) :
    (select_new_role roles = none ∨
     select_new_role roles = some "MSSP_PORTAL_ADMIN" ∨
     select_new_role roles = some "MSSP_PORTAL_USER" ∨
     select_new_role roles = some "MSSP_PORTAL_VIEWER") ∧
    (("userAdmin" ∈ roles ↔ "userAdmin" ∈ roles') →
     ("basicUser" ∈ roles ↔ "basicUser" ∈ roles') →
     (("dashboardUser" ∈ roles ∨ "userViewer" ∈ roles) ↔
      ("dashboardUser" ∈ roles' ∨ "userViewer" ∈ roles')) →
     select_new_role roles = select_new_role roles') := by
  have key : ∀ rs : List String, select_new_role rs =
      (if "userAdmin" ∈ rs then some "MSSP_PORTAL_ADMIN"
       else if "basicUser" ∈ rs then some "MSSP_PORTAL_USER"
       else if "dashboardUser" ∈ rs ∨ "userViewer" ∈ rs then some "MSSP_PORTAL_VIEWER"
       else none) := by
    intro rs
    rw [select_new_role_eq rs]
    by_cases h3 : "dashboardUser" ∈ rs <;> by_cases h4 : "userViewer" ∈ rs <;>
      simp [h3, h4]
  constructor
  · rw [key roles]
    by_cases h1 : "userAdmin" ∈ roles <;> by_cases h2 : "basicUser" ∈ roles <;>
      by_cases h3 : "dashboardUser" ∈ roles ∨ "userViewer" ∈ roles <;>
        simp [h1, h2, h3]
  · intro e1 e2 e3
    rw [key roles, key roles']
    simp only [e1, e2, e3]

/-- Witness for C10: with only one viewer role versus both, the result is
identical. -/
theorem C10_role_codomain_and_viewer_tie_witness :
    select_new_role ["dashboardUser"] = select_new_role ["userViewer", "dashboardUser"] :=
  (C10_role_codomain_and_viewer_tie ["dashboardUser"] ["userViewer", "dashboardUser"]).2
    (by decide) (by decide) (by decide)

/-- C2: the destination group name is the concatenation
account name, underscore, account oid, truncated to its first 31
characters; it is never longer than 31 characters, and on the example
account the result is exactly the 31-character truncation. -/
theorem C2_group_name_truncation (name oid : String) :
    cc_group_name name oid = strTake (name ++ "_" ++ oid) 31 ∧
    (cc_group_name name oid).length ≤ 31 ∧
    cc_group_name "VeryLongCustomerNameExceedingLimit" "abc123"
      = strTake ("VeryLongCustomerNameExceedingLimit" ++ "_" ++ "abc123") 31 ∧
    cc_group_name "VeryLongCustomerNameExceedingLimit" "abc123"
      = "VeryLongCustomerNameExceedingLi" ∧
    (cc_group_name "VeryLongCustomerNameExceedingLimit" "abc123").length = 31 := by
  refine ⟨rfl, ?_, rfl, by decide, by decide⟩
  show (String.mk ((name ++ "_" ++ oid).data.take 31)).length ≤ 31
  have h : ((name ++ "_" ++ oid).data.take 31).length ≤ 31 := by
    rw [List.length_take]
    exact Nat.min_le_left _ _
  exact h

/-- Witness for C2 at a concrete name and oid. -/
theorem C2_group_name_truncation_witness :
    cc_group_name "Acme" "oid1" = strTake ("Acme" ++ "_" ++ "oid1") 31 ∧
    (cc_group_name "Acme" "oid1").length ≤ 31 :=
  ⟨(C2_group_name_truncation "Acme" "oid1").1,
   (C2_group_name_truncation "Acme" "oid1").2.1⟩

/-- C3: the projection performed by `build_users_info` on a single user
keeps a missing name or email absent, defaults a missing username and a
missing account oid to the sentinel N/A, renders an empty current-role
set as the literal None string and a non-empty one as the comma-joined
roles, yields the empty string for a missing or empty allowed-IP list,
and keeps only the first allowed-IP entry otherwise. -/
theorem C3_build_users_info_defaults (user : PyUser) :
    build_users_info [user] = [build_user_info user] ∧
    (build_user_info user).name = user.name ∧
    (build_user_info user).email = user.email ∧
    (user.username = none → (build_user_info user).username = "N/A") ∧
    (user.account = none → (build_user_info user).account_oid = "N/A") ∧
    (∀ a, user.account = some a → a.oid = none → (build_user_info user).account_oid = "N/A") ∧
    (current_roles_of user = [] → (build_user_info user).role_current = "None") ∧
    (current_roles_of user ≠ [] →
      (build_user_info user).role_current = String.intercalate ", " (current_roles_of user)) ∧
    (allowed_ips_of user = [] → (build_user_info user).allowed_ip = "") ∧
    (∀ ip rest, allowed_ips_of user = ip :: rest → (build_user_info user).allowed_ip = ip) := by
  refine ⟨rfl, rfl, rfl, ?_, ?_, ?_, ?_, ?_, ?_, ?_⟩
  · intro h
    simp [build_user_info, h]
  · intro h
    simp [build_user_info, h]
  · intro a ha hoid
    simp [build_user_info, ha, hoid]
  · intro h
    simp only [build_user_info, current_roles_of] at *
    simp [h]
  · intro h
    simp only [build_user_info, current_roles_of] at *
    simp [h]
  · intro h
    simp only [build_user_info, allowed_ips_of] at *
    simp [h]
  · intro ip rest h
    simp only [build_user_info, allowed_ips_of] at *
    simp [h]

/-- A source user record with every key missing, for concrete checks. -/
def user_all_missing : PyUser where
  name := none
  username := none
  role := none
  email := none
  auth_type := none
  account := none
  roles := none
  auth_meta := none
  notes := none

/-- A source user record with two allowed IPs, for concrete checks. -/
def user_two_ips : PyUser where
  name := none
  username := none
  role := none
  email := none
  auth_type := none
  account := none
  roles := none
  auth_meta := some { allowed_ip_list := some ["10.0.0.1", "10.0.0.2"] }
  notes := none

/-- Witness for C3 on an all-missing user and on a user with two allowed
IPs. -/
theorem C3_build_users_info_defaults_witness :
    (build_user_info user_all_missing).username = "N/A" ∧
    (build_user_info user_all_missing).account_oid = "N/A" ∧
    (build_user_info user_all_missing).role_current = "None" ∧
    (build_user_info user_all_missing).allowed_ip = "" ∧
    (build_user_info user_two_ips).allowed_ip = "10.0.0.1" := by
  refine ⟨?_, ?_, ?_, ?_, ?_⟩
  · exact (C3_build_users_info_defaults _).2.2.2.1 rfl
  · exact (C3_build_users_info_defaults _).2.2.2.2.1 rfl
  · exact (C3_build_users_info_defaults _).2.2.2.2.2.2.1 rfl
  · exact (C3_build_users_info_defaults _).2.2.2.2.2.2.2.2.1 rfl
  · exact (C3_build_users_info_defaults _).2.2.2.2.2.2.2.2.2 "10.0.0.1" ["10.0.0.2"] rfl

/-- C4: during the import, with the destination login successful, the run
factors into independent per-entry traces (so processing continues across
entries, in document order), and an entry whose group-creation call fails
contributes exactly its failed group-creation event — no user-creation
call is issued for any of its users. -/
theorem C4_group_failure_isolated (vision : Vision) (config : List GroupEntry)
    (pw : String) (dry : Bool) (hlogin : vision.loginOk = true) :
    import_mssp_config vision config pw dry
      = config.flatMap (group_events vision pw dry) ∧
    (∀ pre post : List GroupEntry,
      import_mssp_config vision (pre ++ post) pw dry
        = import_mssp_config vision pre pw dry ++ import_mssp_config vision post pw dry) ∧
    (∀ g ∈ config,
      vision.createOk (cc_group_name g.accountName g.accountOid) g.assets = false →
        group_events vision pw dry g
            = [ImportEvent.groupCreate (cc_group_name g.accountName g.accountOid)
                g.assets false dry] ∧
          ∀ u grp p d, ImportEvent.addUser u grp p d ∉ group_events vision pw dry g) := by
  refine ⟨by simp [import_mssp_config, hlogin], ?_, ?_⟩
  · intro pre post
    simp [import_mssp_config, hlogin]
  · intro g _ hfail
    constructor
    · simp [group_events, hfail]
    · intro u grp p d
      simp [group_events, hfail]

/-- A destination-client oracle whose login succeeds but whose every
group-creation call fails. -/
def vision_fail_create : Vision where
  loginOk := true
  createOk := fun _ _ => false

/-- A concrete Account Export Entry with one user. -/
def entry_acme : GroupEntry where
  accountName := "Acme"
  accountType := "CustomerAccount"
  accountOid := "oid1"
  assets := ["p1, p2"]
  users := [build_user_info user_all_missing]

/-- Witness for C4: with group creation failing on the Acme entry, the
trace holds only the failed group-creation event. -/
theorem C4_group_failure_isolated_witness :
    group_events vision_fail_create "P@ssw0rd1!" false entry_acme
      = [ImportEvent.groupCreate (cc_group_name "Acme" "oid1") ["p1, p2"] false false] :=
  ((C4_group_failure_isolated vision_fail_create [entry_acme] "P@ssw0rd1!" false rfl).2.2
    entry_acme (List.mem_singleton.mpr rfl) rfl).1

/-- C9: if the single destination authentication fails, the import issues
no destination call at all, for any document, password and dry-run flag. -/
theorem C9_auth_failure_processes_nothing (vision : Vision) (config : List GroupEntry)
    (pw : String) (dry : Bool) (hlogin : vision.loginOk = false) :
    import_mssp_config vision config pw dry = [] := by
  simp [import_mssp_config, hlogin]

/-- A destination-client oracle whose login fails. -/
def vision_no_login : Vision where
  loginOk := false
  createOk := fun _ _ => true

/-- Witness for C9 on a concrete one-entry document. -/
theorem C9_auth_failure_processes_nothing_witness :
    import_mssp_config vision_no_login [entry_acme] "P@ssw0rd1!" true = [] :=
  C9_auth_failure_processes_nothing vision_no_login [entry_acme] "P@ssw0rd1!" true rfl

/-- Concrete parsed arguments: live mode, full source and destination
credentials, and an export file requested. -/
def args_live_with_export : Args where
  mssp_address := some "10.0.0.1"
  mssp_username := some "admin"
  mssp_password := some "pw"
  cc_address := some "10.0.0.2"
  cc_username := some "ccadmin"
  cc_password := some "ccpw"
  export_file := some "export"
  import_from_file := false
  config_file := none
  dry_run := false
  initial_user_password := none

/-- The same arguments without an export file. -/
def args_live_no_export : Args :=
  { args_live_with_export with export_file := none }

/-- A concrete one-entry Structured Export Document with no users. -/
def doc_demo : List GroupEntry :=
  [{ accountName := "Acme", accountType := "CustomerAccount", accountOid := "oid1",
     assets := ["p1, p2"], users := [] }]

/-- Counterexample to C5 as stated: in live mode with a successful source
login and full destination credentials, requesting an export file makes
the main flow save the snapshot and SKIP the import phase — no import
action is issued on the exported document. -/
theorem C5_export_file_skips_import_counterexample :
    main_flow args_live_with_export (some "sid") doc_demo []
      = [MainAction.saveExport doc_demo "export"] ∧
    MainAction.runImport doc_demo "P@ssw0rd1!" false ∉
      main_flow args_live_with_export (some "sid") doc_demo [] := by
  constructor
  · rfl
  · decide

/-- C5 (amended): in live mode with a successful source login and full
destination credentials, the exported document flows to the import
orchestrator exactly when no export file was requested; when an export
file is requested the snapshot is saved and the import phase is skipped. -/
theorem C5_live_flow_import (args : Args) (sid : String)
    (exported loaded : List GroupEntry)
    (hmode : args.import_from_file = false)
    (hsrc : args.mssp_address.isSome ∧ args.mssp_username.isSome ∧ args.mssp_password.isSome)
    (hcc : args.cc_address.isSome ∧ args.cc_username.isSome ∧ args.cc_password.isSome) :
    (args.export_file = none →
      main_flow args (some sid) exported loaded
        = [MainAction.runImport exported
            (args.initial_user_password.getD "P@ssw0rd1!") args.dry_run]) ∧
    (∀ f, args.export_file = some f →
      main_flow args (some sid) exported loaded = [MainAction.saveExport exported f]) := by
  constructor
  · intro hex
    cases hpw : args.initial_user_password <;>
      simp [main_flow, hmode, hsrc, import_phase, hcc, hex, hpw]
  · intro f hex
    simp [main_flow, hmode, hsrc, import_phase, hcc, hex]

/-- Witness for the amended C5: without an export file the exported
document is imported with the default password. -/
theorem C5_live_flow_import_witness :
    main_flow args_live_no_export (some "sid") doc_demo []
      = [MainAction.runImport doc_demo "P@ssw0rd1!" false] :=
  (C5_live_flow_import args_live_no_export "sid" doc_demo []
    rfl ⟨rfl, rfl, rfl⟩ ⟨rfl, rfl, rfl⟩).1 rfl

/-- C6: the export builder produces exactly one Account Export Entry per
account that passes the customer-type filter, in listing order — the
document is the entry map of the filtered listing, its length matches,
every filtered account's entry is present, and an account with an empty
filtered user list still yields an entry whose Users list is empty. -/
theorem C6_one_entry_per_account (accountsResp : ListingResponse SrcAccount)
    (assetsResp : String → ListingResponse SrcAsset)
    (usersResp : String → ListingResponse PyUser) :
    build_structured_export accountsResp assetsResp usersResp
      = (filter_accounts_by_type (fetch_all_accounts accountsResp) "CustomerAccount").map
          (entry_of_account assetsResp usersResp) ∧
    (build_structured_export accountsResp assetsResp usersResp).length
      = (filter_accounts_by_type (fetch_all_accounts accountsResp) "CustomerAccount").length ∧
    (∀ a ∈ filter_accounts_by_type (fetch_all_accounts accountsResp) "CustomerAccount",
      entry_of_account assetsResp usersResp a
        ∈ build_structured_export accountsResp assetsResp usersResp) ∧
    (∀ a : SrcAccount,
      filter_users_by_role (fetch_users_for_account (usersResp (account_oid_of a))) "user" = [] →
      (entry_of_account assetsResp usersResp a).users = []) := by
  refine ⟨rfl, by simp [build_structured_export], ?_, ?_⟩
  · intro a ha
    exact List.mem_map_of_mem _ ha
  · intro a h
    simp [entry_of_account, h, build_users_info]

/-- A concrete customer account with oid `oid1`. -/
def acct_cust : SrcAccount where
  id_ := some { oid := some "oid1" }
  name := some "Acme"
  type_ := some "CustomerAccount"

/-- A concrete non-customer account. -/
def acct_other : SrcAccount where
  id_ := none
  name := some "Other"
  type_ := some "ServiceAccount"

/-- A concrete accounts listing response holding both accounts. -/
def accounts_resp_demo : ListingResponse SrcAccount where
  status_code := 200
  reply := some [acct_cust, acct_other]

/-- A concrete assets listing oracle returning no assets. -/
def assets_resp_demo : String → ListingResponse SrcAsset :=
  fun _ => { status_code := 200, reply := some [] }

/-- A concrete users listing oracle that fails with status 404. -/
def users_resp_demo : String → ListingResponse PyUser :=
  fun _ => { status_code := 404, reply := none }

/-- Witness for C6: the customer account yields an entry even though its
filtered user list is empty. -/
theorem C6_one_entry_per_account_witness :
    entry_of_account assets_resp_demo users_resp_demo acct_cust
      ∈ build_structured_export accounts_resp_demo assets_resp_demo users_resp_demo ∧
    (entry_of_account assets_resp_demo users_resp_demo acct_cust).users = [] :=
  ⟨(C6_one_entry_per_account accounts_resp_demo assets_resp_demo users_resp_demo).2.2.1
      acct_cust (by decide),
   (C6_one_entry_per_account accounts_resp_demo assets_resp_demo users_resp_demo).2.2.2
      acct_cust rfl⟩

/-- C7: both filters return a subsequence of their input (same relative
order, no additions) holding exactly the records whose type tag or role
equals the wanted value, and both are idempotent. -/
theorem C7_filters_pure (accounts : List SrcAccount) (users : List PyUser) (t r : String) :
    List.Sublist (filter_accounts_by_type accounts t) accounts ∧
    (∀ a, a ∈ filter_accounts_by_type accounts t ↔ a ∈ accounts ∧ a.type_ = some t) ∧
    filter_accounts_by_type (filter_accounts_by_type accounts t) t
      = filter_accounts_by_type accounts t ∧
    List.Sublist (filter_users_by_role users r) users ∧
    (∀ u, u ∈ filter_users_by_role users r ↔ u ∈ users ∧ u.role = some r) ∧
    filter_users_by_role (filter_users_by_role users r) r = filter_users_by_role users r := by
  refine ⟨List.filter_sublist _, ?_, ?_, List.filter_sublist _, ?_, ?_⟩
  · intro a
    simp [filter_accounts_by_type]
  · simp [filter_accounts_by_type, List.filter_filter]
  · intro u
    simp [filter_users_by_role]
  · simp [filter_users_by_role, List.filter_filter]

/-- Witness for C7 on a concrete two-account listing. -/
theorem C7_filters_pure_witness :
    List.Sublist (filter_accounts_by_type [acct_cust, acct_other] "CustomerAccount") [acct_cust, acct_other] ∧
    acct_cust ∈ filter_accounts_by_type [acct_cust, acct_other] "CustomerAccount" :=
  ⟨(C7_filters_pure [acct_cust, acct_other] [] "CustomerAccount" "user").1,
   ((C7_filters_pure [acct_cust, acct_other] [] "CustomerAccount" "user").2.1 acct_cust).mpr
     ⟨by decide, rfl⟩⟩

/-- C8: each listing call returns the empty sequence on any non-200
status, and on status 200 returns the parsed reply list, which is empty
when the reply field is absent. -/
theorem C8_listing_calls_degrade (ra : ListingResponse SrcAccount)
    (rs : ListingResponse SrcAsset) (ru : ListingResponse PyUser) :
    (ra.status_code ≠ 200 → fetch_all_accounts ra = []) ∧
    (ra.status_code = 200 → fetch_all_accounts ra = ra.reply.getD []) ∧
    (rs.status_code ≠ 200 → fetch_assets_for_account rs = []) ∧
    (rs.status_code = 200 → fetch_assets_for_account rs = rs.reply.getD []) ∧
    (ru.status_code ≠ 200 → fetch_users_for_account ru = []) ∧
    (ru.status_code = 200 → fetch_users_for_account ru = ru.reply.getD []) := by
  refine ⟨?_, ?_, ?_, ?_, ?_, ?_⟩ <;> intro h <;>
    simp [fetch_all_accounts, fetch_assets_for_account, fetch_users_for_account, h]

/-- Witness for C8 at concrete responses: status 500 yields the empty
list, and status 200 with an absent reply field also yields the empty
list. -/
theorem C8_listing_calls_degrade_witness :
    fetch_all_accounts { status_code := 500, reply := some [acct_cust] } = [] ∧
    fetch_users_for_account { status_code := 200, reply := none } = [] :=
  ⟨(C8_listing_calls_degrade ⟨500, some [acct_cust]⟩ ⟨200, some []⟩ ⟨200, none⟩).1
      (by decide),
   (C8_listing_calls_degrade ⟨500, some [acct_cust]⟩ ⟨200, some []⟩ ⟨200, none⟩).2.2.2.2.2
      rfl⟩

end MsspMigrate
